import Mathlib

/-!
Shallow embedding of the `binding` package of go-tagexpr (binding-plan
compiler, multi-source resolution engine and type-coercion registry),
covering `src/binding/func.go` and `src/binding/receiver.go`.  Parts of the
repository that decide some claims but are not under `src/` (`param.go`,
`bind.go`, the tagexpr selector helpers) are modelled from the spec and
marked as such in their doc comments.

Go machine details are rendered as follows: `reflect.Type` becomes a pair
of a `Kind` and a type-identity string; `reflect.Value` becomes a typed
payload; Go `error` results become `Option GoError` (or `Except GoError`)
values; byte slices become `List Nat`; functions stored in structs stay
functions.  Calls into collaborator code whose outcome depends on the live
request (reading the body, protobuf decoding, RFC3339 parsing) are
represented by explicit data or function parameters, and where a claim is
about an effect happening or not, the embedding additionally returns the
trace of that effect (a `Bool` flag or the list of arguments passed).
-/

namespace Binding

/-- Go `error` values (only the message is observable through `Error()`). -/
structure GoError where
  msg : String
deriving DecidableEq, Repr

/-- `type in uint8` of receiver.go: the source kinds, in declaration order. -/
inductive In where
  | auto
  | path
  | query
  | header
  | cookie
  | rawBody
  | form
  | json
  | protobuf
deriving DecidableEq, Repr

/-- `allIn` of receiver.go: every source kind, in the declared order. -/
def allIn : List In :=
  [In.auto, In.path, In.query, In.header, In.cookie, In.rawBody, In.form, In.json, In.protobuf]

/-- `type codec in` with its four constants from receiver.go. -/
inductive Codec where
  | bodyUnsupport
  | bodyForm
  | bodyJSON
  | bodyProtobuf
deriving DecidableEq, Repr

/-- `reflect.Kind`, restricted to the kinds receiver/func.go distinguish. -/
inductive Kind where
  | string
  | bool
  | float32
  | float64
  | int
  | int64
  | int32
  | int16
  | int8
  | uint
  | uint64
  | uint32
  | uint16
  | uint8
  | ptr
  | struct
  | slice
deriving DecidableEq, Repr

/-- `reflect.Type`: a kind plus the exact type identity (`Type.String()`). -/
structure GoType where
  kind : Kind
  ident : String
deriving DecidableEq, Repr

/-- `reflect.Type.String()`. -/
def GoType.str (t : GoType) : String := t.ident

/-- `reflect.Value`: a value of some exact Go type with an abstract payload. -/
structure Value where
  type : GoType
  payload : String
deriving DecidableEq, Repr

/-- `kindTypeMap` of func.go: the canonical basic type of each scalar kind. -/
def kindTypeMap : Kind → Option GoType
  | Kind.string => some ⟨Kind.string, "string"⟩
  | Kind.bool => some ⟨Kind.bool, "bool"⟩
  | Kind.float32 => some ⟨Kind.float32, "float32"⟩
  | Kind.float64 => some ⟨Kind.float64, "float64"⟩
  | Kind.int => some ⟨Kind.int, "int"⟩
  | Kind.int64 => some ⟨Kind.int64, "int64"⟩
  | Kind.int32 => some ⟨Kind.int32, "int32"⟩
  | Kind.int16 => some ⟨Kind.int16, "int16"⟩
  | Kind.int8 => some ⟨Kind.int8, "int8"⟩
  | Kind.uint => some ⟨Kind.uint, "uint"⟩
  | Kind.uint64 => some ⟨Kind.uint64, "uint64"⟩
  | Kind.uint32 => some ⟨Kind.uint32, "uint32"⟩
  | Kind.uint16 => some ⟨Kind.uint16, "uint16"⟩
  | Kind.uint8 => some ⟨Kind.uint8, "uint8"⟩
  | _ => none

/-- The scalar kinds enumerated by the `switch` in `RegTypeUnmarshal`. -/
def isBasicKind : Kind → Bool
  | Kind.string | Kind.bool
  | Kind.float32 | Kind.float64
  | Kind.int | Kind.int64 | Kind.int32 | Kind.int16 | Kind.int8
  | Kind.uint | Kind.uint64 | Kind.uint32 | Kind.uint16 | Kind.uint8 => true
  | _ => false

/-- The shape of a registered converter: `func(v string, emptyAsZero bool) (reflect.Value, error)`. -/
abbrev ConvFn : Type := String → Bool → Except GoError Value

/-- `typeUnmarshalFuncs`: the converter registry, a Go map keyed by exact type. -/
abbrev Registry : Type := List (GoType × ConvFn)

/-- Go map assignment `m[t] = fn`: overwrite the entry for `t`, else append. -/
def mapSet (reg : Registry) (t : GoType) (fn : ConvFn) : Registry :=
  match reg with
  | [] => [(t, fn)]
  | (t', fn') :: rest => if t' = t then (t, fn) :: rest else (t', fn') :: mapSet rest t fn

/-- The `// check` switch of `RegTypeUnmarshal` (func.go): rejects the exact
basic scalar types and pointer types. -/
def regKindCheck (t : GoType) : Option GoError :=
  if isBasicKind t.kind then
    match kindTypeMap t.kind with
    | none => some ⟨"basic type not supported in map"⟩
    | some otherType =>
      if t = otherType then some ⟨"registration type cannot be a basic type"⟩ else none
  else if t.kind = Kind.ptr then some ⟨"registration type cannot be a pointer type"⟩
  else none

/-- Outcome of one `RegTypeUnmarshal` call: the returned error, the registry
after the call, and the trace of arguments the candidate converter was
invoked with (the Go body is straight-line, so the trace is exact). -/
structure RegResult where
  err : Option GoError
  registry : Registry
  fnCalls : List (String × Bool)

/-- `RegTypeUnmarshal` of func.go: kind check, then a single self-test call
`fn("", true)` whose value must have exactly the registered type; the
converter is stored only after both checks pass. -/
def RegTypeUnmarshal (reg : Registry) (t : GoType) (fn : ConvFn) : RegResult :=
  match regKindCheck t with
  | some e => ⟨some e, reg, []⟩
  | none =>
    match fn "" true with
    | Except.error e => ⟨some ⟨"test fail: " ++ e.msg⟩, reg, [("", true)]⟩
    | Except.ok vv =>
      if vv.type = t then ⟨none, mapSet reg t fn, [("", true)]⟩
      else
        ⟨some ⟨"test fail: expect return value type is " ++ t.str ++ ", but got " ++ vv.type.str⟩,
          reg, [("", true)]⟩

/-- `unmarshalSlice` of func.go: convert each raw string in order with `fn`,
appending to the result, returning the partial slice and the first error as
soon as one element fails. -/
def unmarshalSlice (fn : ConvFn) (t : GoType) (a : List String) (looseZeroMode : Bool) :
    List Value × Option GoError :=
  match a with
  | [] => ([], none)
  | s :: rest =>
    match fn s looseZeroMode with
    | Except.error e => ([], some e)
    | Except.ok vv =>
      let r := unmarshalSlice fn t rest looseZeroMode
      (vv :: r.1, r.2)

/-- `reflect.TypeOf(time.Time{})`. -/
def timeTimeType : GoType := ⟨Kind.struct, "time.Time"⟩

/-- `reflect.ValueOf(time.Time{})`: the zero `time.Time`. -/
def zeroTimeValue : Value := ⟨timeTimeType, "0001-01-01 00:00:00 +0000 UTC"⟩

/-- The `time.Time` converter registered by func.go's `init`, generic over the
outcome of `time.Parse(time.RFC3339, v)` (the standard library's parser is
external to the repository and is taken as a function parameter). -/
def timeUnmarshal (parseRFC3339 : String → Except GoError String) : ConvFn :=
  fun v emptyAsZero =>
    if v = "" ∧ emptyAsZero = true then Except.ok zeroTimeValue
    else
      match parseRFC3339 v with
      | Except.error e => Except.error e
      | Except.ok t => Except.ok ⟨timeTimeType, t⟩

/-- func.go's `init`: the registry produced by registering the `time.Time`
converter into the initially empty `typeUnmarshalFuncs` map. -/
def bindingInitRegistry (parseRFC3339 : String → Except GoError String) : RegResult :=
  RegTypeUnmarshal [] timeTimeType (timeUnmarshal parseRFC3339)

/-! ### receiver.go: the receiver, its request accessors and `initParams` -/

/-- An `http.Cookie` (only name and value are used by the binder). -/
structure Cookie where
  name : String
  value : String
deriving DecidableEq, Repr

/-- `url.Values`: a multimap from keys to ordered value lists. -/
abbrev Values : Type := List (String × List String)

/-- The slice of an `*http.Request` the receiver's accessors can observe:
each collaborator call (`req.URL.Query()`, `req.Cookies()`, `copyBody(req)`,
`req.Form` after `ParseMultipartForm`) is represented by the data it would
yield on this request. -/
structure Request where
  urlQuery : Values
  cookies : List Cookie
  copyBodyResult : List Nat × Option GoError
  postFormIsNil : Bool
  form : Values
  contentType : String
deriving DecidableEq, Repr

/-- The `binding.Error` record observed through the package API and tests:
`{ErrType, FailField, Msg}`. -/
structure BindingError where
  errType : String
  failField : String
  msg : String
deriving DecidableEq, Repr

/-- Modelled from the spec: the default bind-error factory (`bind.go`, not
under src/) builds the BoundError record with category tag "binding failed",
the qualified field name and the human message, as the package tests observe
(`binding.Error{ErrType: "binding failed", FailField: ..., Msg: ...}`). -/
def defaultBindErrFactory (failField msg : String) : BindingError :=
  ⟨"binding failed", failField, msg⟩

/-- `reflect.StructField`, restricted to what receiver.go reads. -/
structure StructField where
  anonymous : Bool
deriving DecidableEq, Repr

/-- One `tagInfo` of a `paramInfo` (param.go): its source kind, required
flag, and the fields `initParams` fills in (`namePath` and the four
precomputed errors, all zero-valued before `initParams` runs). -/
structure TagInfo where
  paramIn : In
  required : Bool
  namePath : String
  requiredError : Option BindingError
  typeError : Option BindingError
  cannotError : Option BindingError
  contentTypeError : Option BindingError

/-- A `paramInfo` as `initParams` consumes it.  `fieldSelector` is the
tagexpr field selector, rendered as its list of dot-separated segments
(`tagexpr.FieldSelector.Split` and `tagexpr.JoinFieldSelector` just split
and join on "."), `name` is param.go's `(p *paramInfo).name(paramIn)`
method — the key name resolved per source kind — taken as data, and
`bindErrFactory` is the error factory stored by `getOrAddParam`. -/
structure ParamInfo where
  fieldSelector : List String
  structField : StructField
  name : In → String
  bindErrFactory : String → String → BindingError
  tagInfos : List TagInfo

/-- The `names` map of `initParams`: the per-source-kind name array of the
param whose selector is `fs`, skipping anonymous fields; a missing entry
yields the zero value "".  (Go map writes overwrite, hence the `reverse`.) -/
def lookupName (params : List ParamInfo) (fs : List String) (i : In) : String :=
  match (params.filter fun p => !p.structField.anonymous).reverse.find?
      (fun p => p.fieldSelector == fs) with
  | some p => p.name i
  | none => ""

/-- The inner loop of `initParams`: walk the ancestor segments accumulating
the selector prefix `fs`; whenever the ancestor at `fs` has a non-empty name
for source kind `i`, namePath is *overwritten* with `name ++ "."`
(receiver.go line `info.namePath = name + "."`). -/
def namePrefixLoop (params : List ParamInfo) (i : In) (fs : List String) :
    List String → String → String
  | [], acc => acc
  | s :: rest, acc =>
    let name := lookupName params (fs ++ [s]) i
    namePrefixLoop params i (fs ++ [s]) rest (if name != "" then name ++ "." else acc)

/-- The diagnostic `namePath` `initParams` computes for a param `p` and source
kind `i`: the loop's final prefix followed by `p.name i`. -/
def namePathOf (params : List ParamInfo) (p : ParamInfo) (i : In) : String :=
  namePrefixLoop params i [] p.fieldSelector.dropLast "" ++ p.name i

/-- The update `initParams` applies to one `tagInfo`: set `namePath` and the
four precomputed errors built through the param's `bindErrFactory`. -/
def initTagInfo (params : List ParamInfo) (p : ParamInfo) (info : TagInfo) : TagInfo :=
  let namePath := namePathOf params p info.paramIn
  { info with
    namePath := namePath
    requiredError := some (p.bindErrFactory namePath "missing required parameter")
    typeError := some (p.bindErrFactory namePath "parameter type does not match binding data")
    cannotError := some (p.bindErrFactory namePath "parameter cannot be bound")
    contentTypeError :=
      some (p.bindErrFactory namePath "does not support binding to the content type body") }

/-- `(*receiver).initParams` of receiver.go, as a transformation of the
receiver's param list. -/
def initParams (params : List ParamInfo) : List ParamInfo :=
  params.map fun p => { p with tagInfos := p.tagInfos.map (initTagInfo params p) }

/-- The `receiver` struct of receiver.go. -/
structure Receiver where
  hasQuery : Bool
  hasCookie : Bool
  hasPath : Bool
  hasBody : Bool
  hasVd : Bool
  params : List ParamInfo

/-- `goutil.BytesToString`. -/
def bytesToString (b : List Nat) : String := String.mk (b.map Char.ofNat)

/-- `(*receiver).getBody` of receiver.go.  The second component of the result
records whether the request body was read (`copyBody` invoked).  Note the
error branch: when `copyBody` fails the function returns a `nil` error. -/
def Receiver.getBody (r : Receiver) (req : Request) :
    (List Nat × String × Option GoError) × Bool :=
  if r.hasBody then
    let bodyBytes := req.copyBodyResult.1
    match req.copyBodyResult.2 with
    | none => ((bodyBytes, bytesToString bodyBytes, none), true)
    | some _ => ((bodyBytes, "", none), true)
  else (([], "", none), false)

/-- `(*receiver).getQuery` of receiver.go; the flag records whether
`req.URL.Query()` was invoked. -/
def Receiver.getQuery (r : Receiver) (req : Request) : Option Values × Bool :=
  if r.hasQuery then (some req.urlQuery, true) else (none, false)

/-- `(*receiver).getCookies` of receiver.go; the flag records whether
`req.Cookies()` (parsing the Cookie header) was invoked. -/
def Receiver.getCookies (r : Receiver) (req : Request) : Option (List Cookie) × Bool :=
  if r.hasCookie then (some req.cookies, true) else (none, false)

/-- `(*receiver).getPostForm` of receiver.go; the flag records whether
`req.ParseMultipartForm` was invoked (it is, only under form codec with a
body-reading plan and a not-yet-parsed form). -/
def Receiver.getPostForm (r : Receiver) (req : Request) (bodyCodec : Codec) :
    (Option Values × Option GoError) × Bool :=
  if bodyCodec = Codec.bodyForm ∧ r.hasBody then
    if req.postFormIsNil then ((some req.form, none), true)
    else ((some req.form, none), false)
  else ((none, none), false)

/-- The piece of the target a protobuf prebind can observe: whether the
struct pointer implements `proto.Message`, and the outcome of
`proto.Unmarshal(bodyBytes, msg)` on it as a function of the bytes. -/
structure StructPointer where
  isProtoMessage : Bool
  protoUnmarshal : List Nat → Option GoError

/-- `(*receiver).prebindBody` of receiver.go (the JSON branch calls the
jsonparam assigner, which returns no error).  The flag records whether
`proto.Unmarshal` was invoked. -/
def prebindBody (structPointer : StructPointer) (bodyCodec : Codec) (bodyBytes : List Nat) :
    Option GoError × Bool :=
  match bodyCodec with
  | Codec.bodyProtobuf =>
    if structPointer.isProtoMessage then (structPointer.protoUnmarshal bodyBytes, true)
    else (some ⟨"protobuf content type is not supported"⟩, false)
  | _ => (none, false)

/-! ### Spec-modelled resolution-engine pieces (param.go is not under src/) -/

/-- Modelled from the spec: param.go's auto-source resolution for a field
with no explicit source annotation.  "it resolves, in priority order, by
attempting path → query → header → cookie → form → raw JSON-subtree lookup
using the field's own identifier as the key, accepting the first source that
reports presence."  `sources i key` is the presence/value view of source `i`
for the key. -/
def resolveAuto (sources : In → String → Option (List String)) (key : String) :
    Option (In × List String) :=
  match sources In.path key with
  | some vs => some (In.path, vs)
  | none =>
  match sources In.query key with
  | some vs => some (In.query, vs)
  | none =>
  match sources In.header key with
  | some vs => some (In.header, vs)
  | none =>
  match sources In.cookie key with
  | some vs => some (In.cookie, vs)
  | none =>
  match sources In.form key with
  | some vs => some (In.form, vs)
  | none =>
  match sources In.json key with
  | some vs => some (In.json, vs)
  | none => none

/-- Modelled from the spec: the required-field check of param.go's bind
step — "If absent and required: produce a missing-required error
immediately", using the tag's precomputed `requiredError`; absent optional
fields are skipped silently. -/
def bindRequiredCheck (info : TagInfo) (present : Bool) : Option BindingError :=
  if present then none
  else if info.required then info.requiredError
  else none

/-! ### The spec's wording of the diagnostic name, for comparison (C7) -/

/-- The names of the ancestors along a selector: for each proper prefix of
the segment list, the ancestor param's own resolved name for source kind `i`
(empty when the ancestor is anonymous or absent). -/
def ancestorNames (params : List ParamInfo) (i : In) (fs : List String) :
    List String → List String
  | [] => []
  | s :: rest => lookupName params (fs ++ [s]) i :: ancestorNames params i (fs ++ [s]) rest

/-- The diagnostic name as the spec's words describe it: the field's own
resolved key, prefixed by EACH ancestor's own resolved key name for the same
SourceKind (anonymous/absent ancestors contributing no segment), dotted. -/
def specNamePathOf (params : List ParamInfo) (p : ParamInfo) (i : In) : String :=
  ((ancestorNames params i [] p.fieldSelector.dropLast).filter fun n => n != "").foldr
    (fun n acc => n ++ "." ++ acc) (p.name i)

/-- The last element of a name list that is non-empty, if any: the "nearest
named ancestor" selector used to state what `initParams` actually builds. -/
def lastName : List String → Option String
  | [] => none
  | n :: rest =>
    match lastName rest with
    | some m => some m
    | none => if n != "" then some n else none

/-! ### Concrete instances used by counterexamples and witnesses -/

/-- Sources for the C1 witness: the key is present in query and header. -/
def demoSources : In → String → Option (List String) := fun i _ =>
  match i with
  | In.query => some ["q1"]
  | In.header => some ["h1"]
  | _ => none

/-- Sources for the C1 witness: the key is present in header and cookie. -/
def demoSources2 : In → String → Option (List String) := fun i _ =>
  match i with
  | In.header => some ["h1"]
  | In.cookie => some ["c1"]
  | _ => none

/-- A receiver whose plan reads the body. -/
def demoBodyReceiver : Receiver :=
  { hasQuery := false, hasCookie := false, hasPath := false, hasBody := true, hasVd := false,
    params := [] }

/-- A request whose body read (`copyBody`) fails with an I/O error after
yielding a partial buffer. -/
def demoFailRequest : Request :=
  { urlQuery := [], cookies := [], copyBodyResult := ([104, 105], some ⟨"unexpected EOF"⟩),
    postFormIsNil := true, form := [], contentType := "application/json" }

/-- The required json tag of the `Y` field of `TestJSON`. -/
def demoYTag : TagInfo := ⟨In.json, true, "", none, none, none, none⟩

/-- The top-level `Y string json:"y,required"` param of `TestJSON`. -/
def demoYParam : ParamInfo :=
  { fieldSelector := ["Y"], structField := ⟨false⟩, name := fun _ => "y",
    bindErrFactory := defaultBindErrFactory, tagInfos := [demoYTag] }

/-- A query tag with nothing resolved yet. -/
def demoTagQuery : TagInfo := ⟨In.query, false, "", none, none, none, none⟩

/-- Ancestor `A`, resolved key "a". -/
def demoParamA : ParamInfo :=
  { fieldSelector := ["A"], structField := ⟨false⟩, name := fun _ => "a",
    bindErrFactory := defaultBindErrFactory, tagInfos := [] }

/-- Ancestor `A.B`, resolved key "b". -/
def demoParamB : ParamInfo :=
  { fieldSelector := ["A", "B"], structField := ⟨false⟩, name := fun _ => "b",
    bindErrFactory := defaultBindErrFactory, tagInfos := [] }

/-- Leaf `A.B.C`, resolved key "c", tagged for query. -/
def demoParamC : ParamInfo :=
  { fieldSelector := ["A", "B", "C"], structField := ⟨false⟩, name := fun _ => "c",
    bindErrFactory := defaultBindErrFactory, tagInfos := [demoTagQuery] }

/-- A depth-two nested plan with every level named. -/
def demoNestedParams : List ParamInfo := [demoParamA, demoParamB, demoParamC]

/-- A registrable external struct type. -/
def demoRegType : GoType := ⟨Kind.struct, "pkg.T"⟩

/-- A converter for `demoRegType` that passes the self-test. -/
def demoRegFn : ConvFn := fun _ _ => Except.ok ⟨demoRegType, "zero"⟩

/-- A scalar converter failing exactly on the input "bad". -/
def demoConvFn : ConvFn := fun s _ =>
  if s = "bad" then Except.error ⟨"bad element"⟩
  else Except.ok ⟨⟨Kind.string, "string"⟩, s⟩

/-- A protobuf-message target whose decode fails. -/
def demoProtoTarget : StructPointer :=
  { isProtoMessage := true, protoUnmarshal := fun _ => some ⟨"proto: bad wire"⟩ }

/-- A target that does not implement `proto.Message`. -/
def demoPlainTarget : StructPointer :=
  { isProtoMessage := false, protoUnmarshal := fun _ => none }

/-- A receiver whose plan reads no source at all. -/
def demoIdleReceiver : Receiver :=
  { hasQuery := false, hasCookie := false, hasPath := false, hasBody := false, hasVd := false,
    params := [] }

/-- A receiver whose plan reads the body (form scenario). -/
def demoFormReceiver : Receiver :=
  { hasQuery := false, hasCookie := false, hasPath := false, hasBody := true, hasVd := false,
    params := [] }

/-- A form request with data present on every channel. -/
def demoFormRequest : Request :=
  { urlQuery := [("a", ["1"])], cookies := [⟨"c", "v"⟩], copyBodyResult := ([97], none),
    postFormIsNil := true, form := [("f", ["x"])],
    contentType := "application/x-www-form-urlencoded" }

/-- An RFC3339 parser instance for the C10 witness. -/
def demoParse : String → Except GoError String := fun s =>
  if s = "2020-01-01T00:00:00Z" then Except.ok "2020-01-01 00:00:00 +0000 UTC"
  else Except.error ⟨"parsing time"⟩

/-! ### Helper lemmas -/

/-- Extract the value of a successful conversion (junk on error; only used
under a success hypothesis). -/
def okValue : Except GoError Value → Value
  | Except.ok v => v
  | Except.error _ => ⟨⟨Kind.string, "string"⟩, ""⟩

/-- Whether a conversion succeeded. -/
def exceptOk : Except GoError Value → Bool
  | Except.ok _ => true
  | Except.error _ => false

theorem unmarshalSlice_all_ok (fn : ConvFn) (t : GoType) (loose : Bool) :
    ∀ a : List String, (∀ s ∈ a, exceptOk (fn s loose) = true) →
      unmarshalSlice fn t a loose = (a.map fun s => okValue (fn s loose), none) := by
  intro a
  induction a with
  | nil => intro _; rfl
  | cons s rest ih =>
    intro h
    have hs := h s (List.mem_cons_self s rest)
    rcases hfn : fn s loose with e | vv
    · rw [hfn] at hs; simp [exceptOk] at hs
    · have hrest := ih fun x hx => h x (List.mem_cons_of_mem s hx)
      simp [unmarshalSlice, hfn, hrest, okValue]

theorem unmarshalSlice_fail_first (fn : ConvFn) (t : GoType) (loose : Bool) :
    ∀ (a₁ : List String) (s : String) (a₂ : List String) (e : GoError),
      (∀ x ∈ a₁, exceptOk (fn x loose) = true) → fn s loose = Except.error e →
      unmarshalSlice fn t (a₁ ++ s :: a₂) loose =
        (a₁.map fun x => okValue (fn x loose), some e) := by
  intro a₁
  induction a₁ with
  | nil => intro s a₂ e _ hs; simp [unmarshalSlice, hs]
  | cons x rest ih =>
    intro s a₂ e h hs
    have hx := h x (List.mem_cons_self x rest)
    rcases hfn : fn x loose with e' | vv
    · rw [hfn] at hx; simp [exceptOk] at hx
    · have hrest := ih s a₂ e (fun y hy => h y (List.mem_cons_of_mem x hy)) hs
      simp [unmarshalSlice, hfn, hrest, okValue]

theorem namePrefixLoop_lastName (params : List ParamInfo) (i : In) :
    ∀ (segs fs : List String) (acc : String),
      namePrefixLoop params i fs segs acc =
        match lastName (ancestorNames params i fs segs) with
        | some n => n ++ "."
        | none => acc := by
  intro segs
  induction segs with
  | nil => intro fs acc; rfl
  | cons s rest ih =>
    intro fs acc
    simp only [namePrefixLoop, ancestorNames]
    rw [ih]
    rcases h : lastName (ancestorNames params i (fs ++ [s]) rest) with _ | m
    · simp only [lastName, h]
      by_cases hn : (lookupName params (fs ++ [s]) i != "") = true <;> simp [hn]
    · simp only [lastName, h]

/-! ### Claims -/

/-- Claim C1: a field with no explicit source annotation resolves by
attempting path, query, header, cookie, form, then the raw-body JSON
subtree, in that order, with the field's own identifier as the key, binding
the value from the first source that reports presence.  The conjuncts pin
every level of the chain — for each source, if all strictly earlier sources
are absent and it is present, its value is bound; if all six are absent the
resolution is empty — which together with soundness fully determines the
resolver on any `sources` view; in particular, a key present in both the
query string and a header binds the query value. -/
theorem auto_source_priority (sources : In → String → Option (List String)) (key : String) :
    (∀ vs, sources In.path key = some vs → resolveAuto sources key = some (In.path, vs)) ∧
    (∀ vs, sources In.path key = none → sources In.query key = some vs →
      resolveAuto sources key = some (In.query, vs)) ∧
    (∀ vs, sources In.path key = none → sources In.query key = none →
      sources In.header key = some vs → resolveAuto sources key = some (In.header, vs)) ∧
    (∀ vs, sources In.path key = none → sources In.query key = none →
      sources In.header key = none → sources In.cookie key = some vs →
      resolveAuto sources key = some (In.cookie, vs)) ∧
    (∀ vs, sources In.path key = none → sources In.query key = none →
      sources In.header key = none → sources In.cookie key = none →
      sources In.form key = some vs → resolveAuto sources key = some (In.form, vs)) ∧
    (∀ vs, sources In.path key = none → sources In.query key = none →
      sources In.header key = none → sources In.cookie key = none →
      sources In.form key = none → sources In.json key = some vs →
      resolveAuto sources key = some (In.json, vs)) ∧
    (sources In.path key = none → sources In.query key = none → sources In.header key = none →
      sources In.cookie key = none → sources In.form key = none → sources In.json key = none →
      resolveAuto sources key = none) ∧
    (∀ qvs hvs, sources In.path key = none → sources In.query key = some qvs →
      sources In.header key = some hvs → resolveAuto sources key = some (In.query, qvs)) ∧
    (∀ i vs, resolveAuto sources key = some (i, vs) → sources i key = some vs) := by
  refine ⟨?_, ?_, ?_, ?_, ?_, ?_, ?_, ?_, ?_⟩
  · intro vs h; simp [resolveAuto, h]
  · intro vs hp hq; simp [resolveAuto, hp, hq]
  · intro vs hp hq hh; simp [resolveAuto, hp, hq, hh]
  · intro vs hp hq hh hc; simp [resolveAuto, hp, hq, hh, hc]
  · intro vs hp hq hh hc hf; simp [resolveAuto, hp, hq, hh, hc, hf]
  · intro vs hp hq hh hc hf hj; simp [resolveAuto, hp, hq, hh, hc, hf, hj]
  · intro hp hq hh hc hf hj; simp [resolveAuto, hp, hq, hh, hc, hf, hj]
  · intro qvs hvs hp hq _; simp [resolveAuto, hp, hq]
  · intro i vs h
    simp only [resolveAuto] at h
    rcases hp : sources In.path key with _ | w <;> simp only [hp] at h
    case some =>
      simp only [Option.some.injEq, Prod.mk.injEq] at h
      obtain ⟨rfl, rfl⟩ := h
      exact hp
    rcases hq : sources In.query key with _ | w <;> simp only [hq] at h
    case some =>
      simp only [Option.some.injEq, Prod.mk.injEq] at h
      obtain ⟨rfl, rfl⟩ := h
      exact hq
    rcases hh : sources In.header key with _ | w <;> simp only [hh] at h
    case some =>
      simp only [Option.some.injEq, Prod.mk.injEq] at h
      obtain ⟨rfl, rfl⟩ := h
      exact hh
    rcases hc : sources In.cookie key with _ | w <;> simp only [hc] at h
    case some =>
      simp only [Option.some.injEq, Prod.mk.injEq] at h
      obtain ⟨rfl, rfl⟩ := h
      exact hc
    rcases hf : sources In.form key with _ | w <;> simp only [hf] at h
    case some =>
      simp only [Option.some.injEq, Prod.mk.injEq] at h
      obtain ⟨rfl, rfl⟩ := h
      exact hf
    rcases hj : sources In.json key with _ | w <;> simp only [hj] at h
    case some =>
      simp only [Option.some.injEq, Prod.mk.injEq] at h
      obtain ⟨rfl, rfl⟩ := h
      exact hj
    exact Option.noConfusion h

theorem auto_source_priority_witness :
    resolveAuto demoSources "k" = some (In.query, ["q1"]) ∧
    resolveAuto demoSources2 "k" = some (In.header, ["h1"]) :=
  ⟨(auto_source_priority demoSources "k").2.2.2.2.2.2.2.1 ["q1"] ["h1"] rfl rfl rfl,
   (auto_source_priority demoSources2 "k").2.2.1 ["h1"] rfl rfl rfl⟩

/-- Claim C2 (code bug): on a request whose raw-body read fails,
`(*receiver).getBody` returns a `nil` error — the `copyBody` error is
replaced by `nil` instead of being surfaced to the bind call's caller. -/
theorem getBody_read_error_dropped :
    demoFailRequest.copyBodyResult.2 = some ⟨"unexpected EOF"⟩ ∧
    demoBodyReceiver.getBody demoFailRequest = (([104, 105], "", none), true) := by
  constructor <;> rfl

/-- Claim C3: a required field absent from every source it can draw from
fails with exactly the missing-required-parameter error: the bind error
carries the field's qualified external name (the `initParams` namePath) and
the message "missing required parameter", and no other error branch is
produced. -/
theorem bind_missing_required (params : List ParamInfo) (p : ParamInfo) (info : TagInfo)
    (hreq : info.required = true) (hfac : p.bindErrFactory = defaultBindErrFactory) :
    bindRequiredCheck (initTagInfo params p info) false =
      some ⟨"binding failed", namePathOf params p info.paramIn, "missing required parameter"⟩ := by
  simp [bindRequiredCheck, initTagInfo, hreq, hfac, defaultBindErrFactory]

theorem bind_missing_required_witness :
    bindRequiredCheck (initTagInfo [demoYParam] demoYParam demoYTag) false =
      some ⟨"binding failed", "y", "missing required parameter"⟩ :=
  bind_missing_required [demoYParam] demoYParam demoYTag rfl rfl

/-- Claim C4: registering a converter for an exact built-in primitive scalar
type or for a pointer type is rejected with an error, leaving the registry
unchanged. -/
theorem regTypeUnmarshal_rejects_basic_and_ptr (reg : Registry) (t : GoType) (fn : ConvFn)
    (h : kindTypeMap t.kind = some t ∨ t.kind = Kind.ptr) :
    (RegTypeUnmarshal reg t fn).err.isSome = true ∧
    (RegTypeUnmarshal reg t fn).registry = reg := by
  rcases h with h | h
  · have hkc : regKindCheck t = some ⟨"registration type cannot be a basic type"⟩ := by
      have hb : isBasicKind t.kind = true := by
        cases hk : t.kind <;> simp_all [kindTypeMap, isBasicKind]
      simp [regKindCheck, hb, h]
    simp [RegTypeUnmarshal, hkc]
  · have hkc : regKindCheck t = some ⟨"registration type cannot be a pointer type"⟩ := by
      simp [regKindCheck, h, isBasicKind]
    simp [RegTypeUnmarshal, hkc]

theorem regTypeUnmarshal_rejects_witness :
    (RegTypeUnmarshal [] ⟨Kind.string, "string"⟩ demoRegFn).err.isSome = true ∧
    (RegTypeUnmarshal [] ⟨Kind.string, "string"⟩ demoRegFn).registry = [] :=
  regTypeUnmarshal_rejects_basic_and_ptr [] ⟨Kind.string, "string"⟩ demoRegFn (Or.inl rfl)

/-- Claim C5: past the kind check, registration invokes the candidate
converter exactly once, with the empty string and loose-zero mode true; it
succeeds exactly when that single call returns no error and a value of
exactly the registered type; a failed self-test rejects the registration
without mutating the registry, and the converter is stored only after all
checks pass. -/
theorem regTypeUnmarshal_selftest (reg : Registry) (t : GoType) (fn : ConvFn)
    (hchk : regKindCheck t = none) :
    (RegTypeUnmarshal reg t fn).fnCalls = [("", true)] ∧
    (∀ e, fn "" true = Except.error e →
      (RegTypeUnmarshal reg t fn).err.isSome = true ∧
      (RegTypeUnmarshal reg t fn).registry = reg) ∧
    (∀ vv, fn "" true = Except.ok vv → vv.type ≠ t →
      (RegTypeUnmarshal reg t fn).err.isSome = true ∧
      (RegTypeUnmarshal reg t fn).registry = reg) ∧
    (∀ vv, fn "" true = Except.ok vv → vv.type = t →
      RegTypeUnmarshal reg t fn = ⟨none, mapSet reg t fn, [("", true)]⟩) := by
  refine ⟨?_, ?_, ?_, ?_⟩
  · simp only [RegTypeUnmarshal, hchk]
    rcases hfn : fn "" true with e | vv
    · rfl
    · by_cases ht : vv.type = t <;> simp [ht]
  · intro e hfn
    simp [RegTypeUnmarshal, hchk, hfn]
  · intro vv hfn ht
    simp [RegTypeUnmarshal, hchk, hfn, ht]
  · intro vv hfn ht
    simp [RegTypeUnmarshal, hchk, hfn, ht]

theorem regTypeUnmarshal_selftest_witness :
    (RegTypeUnmarshal [] demoRegType demoRegFn).fnCalls = [("", true)] ∧
    RegTypeUnmarshal [] demoRegType demoRegFn =
      ⟨none, mapSet [] demoRegType demoRegFn, [("", true)]⟩ :=
  ⟨(regTypeUnmarshal_selftest [] demoRegType demoRegFn rfl).1,
   (regTypeUnmarshal_selftest [] demoRegType demoRegFn rfl).2.2.2 ⟨demoRegType, "zero"⟩ rfl rfl⟩

/-- Claim C6: sequence coercion applies the scalar converter to each element
in input order — the resulting sequence is the elementwise image of the
input, preserving order and duplicates — and fails fast at the first element
whose conversion fails, returning that element's error. -/
theorem unmarshalSlice_spec (fn : ConvFn) (t : GoType) (a : List String) (loose : Bool) :
    ((∀ s ∈ a, exceptOk (fn s loose) = true) →
      unmarshalSlice fn t a loose = (a.map fun s => okValue (fn s loose), none)) ∧
    (∀ (a₁ : List String) (s : String) (a₂ : List String) (e : GoError),
      a = a₁ ++ s :: a₂ → (∀ x ∈ a₁, exceptOk (fn x loose) = true) →
      fn s loose = Except.error e →
      unmarshalSlice fn t a loose = (a₁.map fun x => okValue (fn x loose), some e)) :=
  ⟨unmarshalSlice_all_ok fn t loose a,
   fun a₁ s a₂ e ha h hs => by
    subst ha; exact unmarshalSlice_fail_first fn t loose a₁ s a₂ e h hs⟩

theorem unmarshalSlice_spec_witness :
    unmarshalSlice demoConvFn ⟨Kind.string, "string"⟩ ["v1", "v2"] true =
      ([⟨⟨Kind.string, "string"⟩, "v1"⟩, ⟨⟨Kind.string, "string"⟩, "v2"⟩], none) ∧
    (unmarshalSlice demoConvFn ⟨Kind.string, "string"⟩ ["v1", "bad", "v2"] true).2 =
      some ⟨"bad element"⟩ := by
  constructor
  · exact (unmarshalSlice_spec demoConvFn ⟨Kind.string, "string"⟩ ["v1", "v2"] true).1
      (by decide)
  · rw [(unmarshalSlice_spec demoConvFn ⟨Kind.string, "string"⟩ ["v1", "bad", "v2"] true).2
      ["v1"] "bad" ["v2"] ⟨"bad element"⟩ rfl (by decide) rfl]

/-- Claim C7 counterexample: with named ancestors `A` (key "a") and `A.B`
(key "b") above leaf `A.B.C` (key "c"), `initParams` computes the diagnostic
name "b.c" — the loop overwrites the prefix with each named ancestor — while
the claim's "prefix with each ancestor's own resolved key name" demands
"a.b.c". -/
theorem namePath_counterexample :
    (initTagInfo demoNestedParams demoParamC demoTagQuery).namePath = "b.c" ∧
    specNamePathOf demoNestedParams demoParamC In.query = "a.b.c" ∧
    (initTagInfo demoNestedParams demoParamC demoTagQuery).namePath ≠
      specNamePathOf demoNestedParams demoParamC In.query := by
  refine ⟨rfl, rfl, ?_⟩
  decide

/-- Claim C7 (amended): the precomputed diagnostic name for a descriptor and
SourceKind is the field's own resolved key, prefixed (with a dot) by the
resolved key name of only the nearest ancestor whose resolved key name for
that same SourceKind is non-empty — each named ancestor overwrites the
prefix rather than chaining — while anonymous/embedded records (and
ancestors with empty resolved names) contribute no segment. -/
theorem namePath_nearest_named_ancestor (params : List ParamInfo) (p : ParamInfo) (i : In) :
    namePathOf params p i =
      (match lastName (ancestorNames params i [] p.fieldSelector.dropLast) with
       | some n => n ++ "."
       | none => "") ++ p.name i := by
  unfold namePathOf
  rw [namePrefixLoop_lastName]

/-- Claim C8: under the protobuf body codec, the body is decoded only when
the target implements `proto.Message`: a non-conforming target yields an
error with the decoder not invoked, and on a conforming target the decoder's
outcome — in particular its failure — is returned verbatim. -/
theorem prebindBody_protobuf (sp : StructPointer) (bodyBytes : List Nat) :
    (sp.isProtoMessage = false →
      prebindBody sp Codec.bodyProtobuf bodyBytes =
        (some ⟨"protobuf content type is not supported"⟩, false)) ∧
    (sp.isProtoMessage = true →
      prebindBody sp Codec.bodyProtobuf bodyBytes = (sp.protoUnmarshal bodyBytes, true)) := by
  constructor <;> intro h <;> simp [prebindBody, h]

theorem prebindBody_protobuf_witness :
    prebindBody demoPlainTarget Codec.bodyProtobuf [1] =
      (some ⟨"protobuf content type is not supported"⟩, false) ∧
    prebindBody demoProtoTarget Codec.bodyProtobuf [1] = (some ⟨"proto: bad wire"⟩, true) :=
  ⟨(prebindBody_protobuf demoPlainTarget [1]).1 rfl,
   (prebindBody_protobuf demoProtoTarget [1]).2 rfl⟩

/-- Claim C9: when the compiled plan marks a source unused, the accessor
helper returns the empty result without touching the request — no field
reads the query string, cookies, or body, respectively, means
`req.URL.Query()`, `req.Cookies()`, and `copyBody` are never invoked — and
the form is parsed only under the form body codec with a body-reading
plan. -/
theorem accessor_frame (r : Receiver) (req : Request) (bodyCodec : Codec) :
    (r.hasQuery = false → r.getQuery req = (none, false)) ∧
    (r.hasCookie = false → r.getCookies req = (none, false)) ∧
    (r.hasBody = false → r.getBody req = (([], "", none), false)) ∧
    ((r.getPostForm req bodyCodec).2 = true → bodyCodec = Codec.bodyForm ∧ r.hasBody = true) := by
  refine ⟨?_, ?_, ?_, ?_⟩
  · intro h; simp [Receiver.getQuery, h]
  · intro h; simp [Receiver.getCookies, h]
  · intro h; simp [Receiver.getBody, h]
  · intro h
    by_cases hc : bodyCodec = Codec.bodyForm ∧ r.hasBody = true
    · exact hc
    · simp [Receiver.getPostForm, hc] at h

theorem accessor_frame_witness :
    demoIdleReceiver.getQuery demoFormRequest = (none, false) ∧
    demoIdleReceiver.getCookies demoFormRequest = (none, false) ∧
    demoIdleReceiver.getBody demoFormRequest = (([], "", none), false) ∧
    (Codec.bodyForm = Codec.bodyForm ∧ demoFormReceiver.hasBody = true) :=
  ⟨(accessor_frame demoIdleReceiver demoFormRequest Codec.bodyForm).1 rfl,
   (accessor_frame demoIdleReceiver demoFormRequest Codec.bodyForm).2.1 rfl,
   (accessor_frame demoIdleReceiver demoFormRequest Codec.bodyForm).2.2.1 rfl,
   (accessor_frame demoFormReceiver demoFormRequest Codec.bodyForm).2.2.2 rfl⟩

/-- Claim C10: the `time.Time` converter is pre-registered at package
initialization (the registration succeeds, storing the converter); with the
empty string and loose-zero mode true it returns the zero time value, and on
any other input it defers to RFC3339 parsing, returning the parsed time on
success and the parse error — with no value — on failure. -/
theorem timeUnmarshal_spec (parseRFC3339 : String → Except GoError String) :
    ((bindingInitRegistry parseRFC3339).err = none ∧
      (bindingInitRegistry parseRFC3339).registry =
        [(timeTimeType, timeUnmarshal parseRFC3339)]) ∧
    timeUnmarshal parseRFC3339 "" true = Except.ok zeroTimeValue ∧
    (∀ v emptyAsZero, ¬(v = "" ∧ emptyAsZero = true) →
      timeUnmarshal parseRFC3339 v emptyAsZero =
        match parseRFC3339 v with
        | Except.error e => Except.error e
        | Except.ok t => Except.ok ⟨timeTimeType, t⟩) := by
  refine ⟨⟨rfl, rfl⟩, rfl, ?_⟩
  intro v em h
  simp [timeUnmarshal, h]

theorem timeUnmarshal_spec_witness :
    (bindingInitRegistry demoParse).err = none ∧
    timeUnmarshal demoParse "" true = Except.ok zeroTimeValue ∧
    timeUnmarshal demoParse "2020-01-01T00:00:00Z" true =
      Except.ok ⟨timeTimeType, "2020-01-01 00:00:00 +0000 UTC"⟩ ∧
    timeUnmarshal demoParse "nope" false = Except.error ⟨"parsing time"⟩ := by
  refine ⟨(timeUnmarshal_spec demoParse).1.1, (timeUnmarshal_spec demoParse).2.1, ?_, ?_⟩
  · rw [(timeUnmarshal_spec demoParse).2.2 "2020-01-01T00:00:00Z" true (by decide)]
    rfl
  · rw [(timeUnmarshal_spec demoParse).2.2 "nope" false (by decide)]
    rfl

end Binding
